import Mathlib

/-!
Shallow embedding of `src/app.py` (PDF Merger Pro, a Flask service that
uploads, merges and serves PDF files).

Conventions of the embedding:
  * A PDF's pages are abstracted as a `List Nat` of page identifiers; the
    external PDF library is modelled by `PdfContent` / `FileContent`:
    parsing either raises (modelled as `malformed` / `unparseable`) or
    succeeds and yields the page sequence, whose length is the page count.
  * The filesystem is an oracle `Disk` (directory existence plus per-path
    file content); session directories on disk are tracked by session id.
  * `datetime.now()` is a parameter: a `Nat` of epoch seconds where ages are
    computed, a preformatted `%H%M%S` string where filenames are composed.
  * `uuid.uuid4()` is a parameter (`freshId` / `freshMergedId`).
  * Python dicts keyed by strings are association lists with unique keys,
    read through `dictGet` (first binding wins) and written through
    `dictSet`.
-/

namespace PdfMerger

/-- app.py line 35: the upload root directory (`Config.UPLOAD_FOLDER`). -/
def UPLOAD_FOLDER : String := "temp_uploads"

/-- Model of `os.path.join` for the two-component POSIX joins in app.py. -/
def pathJoin (a b : String) : String := a ++ "/" ++ b

/-- Python string operations are modelled on the character list of the
string (Python `str` is a sequence of code points).  `afterLastDot l`
returns the characters after the last `.` of `l` (Python
`rsplit('.', 1)[1]`), or `none` when `l` has no dot. -/
def afterLastDot : List Char → Option (List Char)
  | [] => none
  | c :: rest =>
    match afterLastDot rest with
    | some t => some t
    | none => if c = '.' then some rest else none

/-- Python `str.lower` applied characterwise (ASCII inputs). -/
def lowerList (l : List Char) : List Char := l.map Char.toLower

/-- Whether the first list is a prefix of the second. -/
def isPrefixList : List Char → List Char → Bool
  | [], _ => true
  | _ :: _, [] => false
  | p :: ps, c :: cs => p == c && isPrefixList ps cs

/-- Python `str.endswith`. -/
def endsWithList (suffixChars l : List Char) : Bool :=
  isPrefixList suffixChars.reverse l.reverse

/-- Python `s.endswith(suffixStr)` on strings. -/
def pyEndsWith (s suffixStr : String) : Bool := endsWithList suffixStr.toList s.toList

/-- Python `s.lower()` on strings (ASCII inputs). -/
def pyLower (s : String) : String := String.mk (lowerList s.toList)

/-- Python `str.split()` with no separator: split on whitespace runs,
dropping empty pieces.  `acc` holds the current piece reversed. -/
def splitWsAux : List Char → List Char → List (List Char)
  | [], acc => if acc = [] then [] else [acc.reverse]
  | c :: rest, acc =>
    if c.isWhitespace then
      if acc = [] then splitWsAux rest [] else acc.reverse :: splitWsAux rest []
    else splitWsAux rest (c :: acc)

/-- Python `str.split()` with no separator. -/
def splitWs (l : List Char) : List (List Char) := splitWsAux l []

/-- Python `"_".join(pieces)`. -/
def joinUnderscore : List (List Char) → List Char
  | [] => []
  | [x] => x
  | x :: y :: xs => x ++ '_' :: joinUnderscore (y :: xs)

/-- One fuel-indexed step list for Python `str.replace` (non-overlapping,
left to right); the fuel starts at the list length and bounds the number
of steps, each of which consumes at least one character. -/
def replaceAllFuel (pat rep : List Char) : Nat → List Char → List Char
  | _, [] => []
  | 0, l => l
  | fuel + 1, c :: rest =>
    if pat ≠ [] ∧ isPrefixList pat (c :: rest) = true then
      rep ++ replaceAllFuel pat rep fuel (List.drop (pat.length - 1) rest)
    else c :: replaceAllFuel pat rep fuel rest

/-- Python `str.replace` on character lists (every non-overlapping
occurrence, scanning left to right; nonempty patterns). -/
def replaceAll (pat rep l : List Char) : List Char := replaceAllFuel pat rep l.length l

/-- Python `s.replace(pat, rep)` on strings. -/
def pyReplace (s pat rep : String) : String :=
  String.mk (replaceAll pat.toList rep.toList s.toList)

/-- app.py lines 96-97: `allowed_file` - the filename must contain a dot and
the text after the last dot, lowercased, must be `pdf`
(`'.' in filename and filename.rsplit('.', 1)[1].lower() in {'pdf'}`). -/
def allowed_file (filename : String) : Bool :=
  match afterLastDot filename.toList with
  | none => false
  | some ext => lowerList ext == "pdf".toList

/-- The character class kept by werkzeug's sanitizer regex `[A-Za-z0-9_.-]`. -/
def keepChar (c : Char) : Bool :=
  c.isAlphanum || c == '_' || c == '.' || c == '-'

/-- Characters stripped from both ends by werkzeug's `.strip("._")`. -/
def stripChar (c : Char) : Bool := c == '.' || c == '_'

/-- Model of `werkzeug.utils.secure_filename` on a POSIX host for ASCII
input: replace the path separator `/` by a space, collapse whitespace runs
joining with `_` (Python `"_".join(s.split())`), delete every character
outside `[A-Za-z0-9_.-]`, and strip `.` and `_` from both ends.  (The
NFKD-normalize/ASCII-encode step is the identity on ASCII input,
`os.path.altsep` is `None` on POSIX, and the `os.name == "nt"` device-name
branch is not taken.) -/
def secure_filename (s : String) : String :=
  let replaced := s.toList.map (fun c => if c == '/' then ' ' else c)
  let joined := joinUnderscore (splitWs replaced)
  let kept := joined.filter keepChar
  String.mk (((kept.dropWhile stripChar).reverse.dropWhile stripChar).reverse)

/-- app.py lines 100-102: the static placeholder thumbnail data URI returned
by `get_placeholder_thumbnail`. -/
def get_placeholder_thumbnail : String :=
  "data:image/svg+xml;base64,PHN2ZyB3aWR0aD0iMTAwIiBoZWlnaHQ9IjEyMCIgdmlld0JveD0iMCAwIDEwMCAxMjAiIGZpbGw9Im5vbmUiIHhtbG5zPSJodHRwOi8vd3d3LnczLm9yZy8yMDAwL3N2ZyI+PHJlY3Qgd2lkdGg9IjEwMCIgaGVpZ2h0PSIxMjAiIGZpbGw9IiNGNUY1RjUiLz48dGV4dCB4PSI1MCIgeT0iNzAiIGZvbnQtZmFtaWx5PSJBcmlhbCIgZm9udC1zaXplPSIxNCIgZmlsbD0iIzk5OSIgdGV4dC1hbmNob3I9Im1pZGRsZSI+UERGPC90ZXh0Pjwvc3ZnPg=="

/-- Result of handing a file's bytes to the PDF library: the parse either
raises or yields the file's page sequence. -/
inductive PdfContent where
  | malformed : PdfContent
  | wellFormed : List Nat → PdfContent
deriving DecidableEq, Inhabited

/-- One part of a multipart upload: the client-supplied filename, the size
reported after saving, and the bytes as seen by the PDF library. -/
structure UploadFile where
  filename : String
  size : Nat
  content : PdfContent
deriving DecidableEq, Inhabited

/-- app.py lines 261-271: the per-file record stored in `session_files` and
echoed to the client as a preview. -/
structure FileInfo where
  id : String
  filename : String
  safe_filename : String
  size : Nat
  pages : Nat
  thumbnail : String
  session_id : String
  file_index : Nat
  file_path : String
deriving DecidableEq, Inhabited

/-- app.py lines 368-371: the per-file record accumulated in
`processed_files` during a merge. -/
structure ProcessedFile where
  filename : String
  pages : Nat
deriving DecidableEq, Inhabited

/-- app.py lines 404-411: the value stored in `merged_pdfs` under a freshly
minted merge id (`created_at` in epoch seconds). -/
structure MergeResult where
  path : String
  filename : String
  session_id : String
  created_at : Nat
  file_count : Nat
  total_pages : Nat
deriving DecidableEq, Inhabited

/-- One element of the `file_order` JSON array posted to `/merge-ordered`:
the client supplies the file id and the original filename. -/
structure OrderEntry where
  id : String
  filename : String
deriving DecidableEq, Inhabited

/-- What the filesystem holds at a path: nothing, bytes the PDF library
rejects with an exception, or a parseable PDF with the given pages. -/
inductive FileContent where
  | missing : FileContent
  | unparseable : FileContent
  | pdf : List Nat → FileContent
deriving DecidableEq, Inhabited

/-- Filesystem oracle: directory existence and per-path file content. -/
structure Disk where
  dirExists : String → Bool
  file : String → FileContent

/-- The module-level mutable state of app.py: `session_files` (line 55),
`merged_pdfs` (line 56), and the session directories existing on disk
(identified by their session id). -/
structure ServerState where
  session_files : List (String × List FileInfo)
  merged_pdfs : List (String × MergeResult)
  dirs : List String
deriving DecidableEq

/-- Python dict lookup on an association list (unique keys, first binding
wins). -/
def dictGet {α : Type} (k : String) : List (String × α) → Option α
  | [] => none
  | (k', v) :: rest => if k' = k then some v else dictGet k rest

/-- Python dict assignment on an association list: replace the binding if
the key is present, append it otherwise (dict insertion order). -/
def dictSet {α : Type} (k : String) (v : α) : List (String × α) → List (String × α)
  | [] => [(k, v)]
  | (k', v') :: rest => if k' = k then (k, v) :: rest else (k', v') :: dictSet k v rest

/-- app.py lines 175-192: `cleanup_session` - delete the session id's key
from both registries (`del session_files[sid]`, `del merged_pdfs[sid]`,
each guarded by a membership test) and `shutil.rmtree` the session's
directory. -/
def cleanup_session (st : ServerState) (session_id : String) : ServerState :=
  { session_files := st.session_files.filter (fun p => !(p.1 == session_id))
    merged_pdfs := st.merged_pdfs.filter (fun p => !(p.1 == session_id))
    dirs := st.dirs.filter (fun d => !(d == session_id)) }

/-- app.py lines 156-165: the expiry test inside `cleanup_memory`.  `ctime`
gives the creation time of the session's upload directory (`none` when
`os.path.getctime` raises, e.g. the directory is gone; the bare `except`
then marks the session expired).  The code tests
`(now - ctime).seconds > 600`, and Python's `timedelta.seconds` is the
seconds-within-a-day component of the age, i.e. `(now - t) % 86400`
(directories are never created in the future, so `now ≥ t`). -/
def sessionExpiredCheck (now : Nat) (ctime : Option Nat) : Bool :=
  match ctime with
  | none => true
  | some t => (now - t) % 86400 > 600

/-- app.py lines 147-173: `cleanup_memory` - collect the session ids whose
expiry test passes, then run `cleanup_session` on each of them. -/
def cleanup_memory (st : ServerState) (now : Nat) (ctime : String → Option Nat) :
    ServerState :=
  let expired := (st.session_files.map Prod.fst).filter
    (fun sid => sessionExpiredCheck now (ctime sid))
  expired.foldl cleanup_session st

/-- app.py lines 214-220: session selection for an upload - reuse a live
existing session (next file index = current list length), otherwise mint a
fresh uuid with file index 0 (`if session_id and session_id in
session_files`). -/
def selectSession (reg : List (String × List FileInfo)) (existing : Option String)
    (freshId : String) : String × Nat :=
  match existing with
  | some sid =>
    if sid ≠ "" then
      match dictGet sid reg with
      | some l => (sid, l.length)
      | none => (freshId, 0)
    else (freshId, 0)
  | none => (freshId, 0)

/-- app.py lines 238-271: the record built for one accepted upload.  The
stored filename is `f"{file_index}_{secure_filename(name)}"`; the page
count is `len(reader.pages)` when the parse succeeds and `1` on any
exception (lines 250-259); the thumbnail starts as the placeholder. -/
def buildFileInfo (session_id : String) (file_index : Nat) (f : UploadFile) :
    FileInfo :=
  let stored := toString file_index ++ "_" ++ secure_filename f.filename
  { id := session_id ++ "_" ++ toString file_index
    filename := f.filename
    safe_filename := stored
    size := f.size
    pages := match f.content with
      | .wellFormed ps => ps.length
      | .malformed => 1
    thumbnail := get_placeholder_thumbnail
    session_id := session_id
    file_index := file_index
    file_path := stored }

/-- app.py lines 230-286: the upload loop - files with an empty name or a
disallowed extension are skipped (`continue`); accepted files are numbered
consecutively starting from the session's current index. -/
def processUploads (session_id : String) : Nat → List UploadFile → List FileInfo
  | _, [] => []
  | idx, f :: rest =>
    if f.filename = "" then processUploads session_id idx rest
    else if !(allowed_file f.filename) then processUploads session_id idx rest
    else buildFileInfo session_id idx f :: processUploads session_id (idx + 1) rest

/-- JSON response of `/upload-preview`: an error status with message, or
`success: true` with the previews and the session id. -/
inductive UploadResponse where
  | err : Nat → String → UploadResponse
  | ok : List FileInfo → String → UploadResponse
deriving DecidableEq

/-- app.py lines 198-296: the `/upload-preview` handler.  Inputs: the shared
state, the clock and directory-ctime oracle (for the opportunistic
`cleanup_memory` call fired when more than 50 sessions are live), whether
the multipart field `pdf_files` is present, the uploaded parts, the
optional `existing_session` form field, and the uuid that `uuid.uuid4()`
would mint.  Returns the JSON response and the new server state (registry
entry created/extended, session directory ensured on disk). -/
def upload_preview (st : ServerState) (now : Nat) (ctime : String → Option Nat)
    (filesPresent : Bool) (files : List UploadFile) (existing : Option String)
    (freshId : String) : UploadResponse × ServerState :=
  let st1 := if st.session_files.length > 50 then cleanup_memory st now ctime else st
  if !filesPresent then (.err 400 "No files uploaded", st1)
  else if files = [] ∨ (files.length = 1 ∧ (files.headD default).filename = "") then
    (.err 400 "No files selected", st1)
  else
    let sel := selectSession st1.session_files existing freshId
    let previews := processUploads sel.1 sel.2 files
    let newList := (dictGet sel.1 st1.session_files).getD [] ++ previews
    (.ok previews sel.1,
      { st1 with
        session_files := dictSet sel.1 newList st1.session_files
        dirs := if sel.1 ∈ st1.dirs then st1.dirs else sel.1 :: st1.dirs })

/-- app.py lines 337-341: linear scan for the first session record whose
`id` equals the requested file id. -/
def findSessionFile (fid : String) : List FileInfo → Option FileInfo
  | [] => none
  | sf :: rest => if sf.id = fid then some sf else findSessionFile fid rest

/-- app.py lines 332-377: handling of a single `file_order` entry - resolve
the id against the session list, check the backing file exists on disk,
open and parse it; on success yield the file's page sequence together with
the `processed_files` record (original filename, page count); `none` means
the loop `continue`s (unresolved id, missing file, or read exception). -/
def processEntry (sfl : List FileInfo) (disk : Disk) (tempDir : String)
    (e : OrderEntry) : Option (List Nat × ProcessedFile) :=
  match findSessionFile e.id sfl with
  | none => none
  | some sf =>
    match disk.file (pathJoin tempDir sf.safe_filename) with
    | .pdf pages => some (pages, { filename := e.filename, pages := pages.length })
    | _ => none

/-- app.py lines 329-377: the merge loop over `file_order` - every page of
each successfully processed entry is appended to the writer (first
component) and its record to `processed_files` (second component), in
requested order. -/
def processOrder (sfl : List FileInfo) (disk : Disk) (tempDir : String) :
    List OrderEntry → List Nat × List ProcessedFile
  | [] => ([], [])
  | e :: rest =>
    let r := processOrder sfl disk tempDir rest
    match processEntry sfl disk tempDir e with
    | none => r
    | some (pgs, pf) => (pgs ++ r.1, pf :: r.2)

/-- The resolution notion the specification speaks about for a `file_order`
entry: its id matches a session record and the backing file is present on
disk (readability not required). -/
def claimResolves (sfl : List FileInfo) (disk : Disk) (tempDir : String)
    (e : OrderEntry) : Bool :=
  match findSessionFile e.id sfl with
  | none => false
  | some sf => !(disk.file (pathJoin tempDir sf.safe_filename) == .missing)

/-- The success payload of `/merge-ordered` (app.py lines 383-425): the JSON
fields `merged_id`, `filename`, `file_count`, `total_pages`, plus the page
sequence written to the output file and the output path on disk. -/
structure MergeOk where
  merged_id : String
  filename : String
  file_count : Nat
  total_pages : Nat
  output_pages : List Nat
  output_path : String
deriving DecidableEq, Inhabited

/-- JSON response of `/merge-ordered`. -/
inductive MergeResponse where
  | err : Nat → String → MergeResponse
  | ok : MergeOk → MergeResponse
deriving DecidableEq

/-- app.py lines 298-429: the `/merge-ordered` handler.  `reg` is
`session_files`, `now` the `%H%M%S`-formatted current time,
`freshMergedId` the uuid minted for the result.  The post-success state
effects (storing the `MergeResult` under `freshMergedId` and the trailing
`cleanup_memory()` call) only mutate the registries and are modelled by
`cleanup_memory` separately; the claims below are about the response. -/
def merge_ordered_pdfs (reg : List (String × List FileInfo)) (disk : Disk)
    (sessionId : Option String) (fileOrder : List OrderEntry)
    (now : String) (freshMergedId : String) : MergeResponse :=
  match sessionId with
  | none => .err 400 "Missing session or file order data"
  | some sid =>
    if sid = "" ∨ fileOrder = [] then .err 400 "Missing session or file order data"
    else if fileOrder.length < 1 then .err 400 "Please select at least 1 PDF file"
    else if !(disk.dirExists (pathJoin UPLOAD_FOLDER sid)) then
      .err 400 "Session expired or invalid"
    else
      let sfl := (dictGet sid reg).getD []
      if sfl = [] then .err 400 "No files found in session"
      else
        let td := pathJoin UPLOAD_FOLDER sid
        let res := processOrder sfl disk td fileOrder
        if res.2 = [] then .err 400 "No valid files could be processed"
        else
          let total := (res.2.map ProcessedFile.pages).sum
          let fname :=
            if res.2.length = 1 then
              "processed_" ++ pyReplace (res.2.headD default).filename ".pdf" ""
                ++ "_" ++ now ++ ".pdf"
            else
              "merged_" ++ toString res.2.length ++ "_files_" ++ toString total
                ++ "_pages_" ++ now ++ ".pdf"
          .ok { merged_id := freshMergedId
                filename := fname
                file_count := res.2.length
                total_pages := total
                output_pages := res.1
                output_path := pathJoin td fname }

/-- Response of `/download-merged/<merged_id>`: an error, or
`sendFile path name` standing for Flask's
`send_file(path, as_attachment=True, download_name=name,
mimetype='application/pdf')`. -/
inductive DownloadResponse where
  | err : Nat → String → DownloadResponse
  | sendFile : String → String → DownloadResponse
deriving DecidableEq

/-- app.py lines 431-468: the `/download-merged/<merged_id>` handler with
its optional `filename` query parameter (`none` when absent; Python also
treats the empty string as absent via `if custom_filename:`). -/
def download_merged_pdf (merged : List (String × MergeResult))
    (fileExistsOnDisk : String → Bool) (merged_id : String)
    (customFilename : Option String) : DownloadResponse :=
  match dictGet merged_id merged with
  | none => .err 404 "Merged PDF not found or expired"
  | some info =>
    let name :=
      match customFilename with
      | some c =>
        if c ≠ "" then
          let c1 := if pyEndsWith (pyLower c) ".pdf" then c else c ++ ".pdf"
          let d := secure_filename c1
          if d = "" ∨ d = ".pdf" then info.filename else d
        else info.filename
      | none => info.filename
    if !(fileExistsOnDisk info.path) then .err 404 "File not found on server"
    else .sendFile info.path name

/-! Concrete instances used by witnesses and counterexamples. -/

/-- A ctime oracle for states with no session directories. -/
def noCtime : String → Option Nat := fun _ => none

/-- The empty server state (fresh process). -/
def emptyState : ServerState := ⟨[], [], []⟩

/-- Example session `s`: `a.pdf` with 2 pages and `b.pdf` with 3 pages,
uploaded in that order. -/
def exA : FileInfo := buildFileInfo "s" 0 ⟨"a.pdf", 1000, .wellFormed [1, 2]⟩

/-- Second file of the example session. -/
def exB : FileInfo := buildFileInfo "s" 1 ⟨"b.pdf", 2000, .wellFormed [3, 4, 5]⟩

/-- Session registry holding the example session. -/
def exReg : List (String × List FileInfo) := [("s", [exA, exB])]

/-- Disk contents backing the example session. -/
def exDisk : Disk :=
  { dirExists := fun p => p == pathJoin UPLOAD_FOLDER "s"
    file := fun p =>
      if p = "temp_uploads/s/0_a.pdf" then .pdf [1, 2]
      else if p = "temp_uploads/s/1_b.pdf" then .pdf [3, 4, 5]
      else .missing }

/-- Requested merge order `[b, a]` - the reverse of upload order. -/
def exOrder : List OrderEntry := [⟨"s_1", "b.pdf"⟩, ⟨"s_0", "a.pdf"⟩]

/-- Expected merge result for `exOrder` at timestamp `101010`. -/
def exOk : MergeOk :=
  { merged_id := "m"
    filename := "merged_2_files_5_pages_101010.pdf"
    file_count := 2
    total_pages := 5
    output_pages := [3, 4, 5, 1, 2]
    output_path := "temp_uploads/s/merged_2_files_5_pages_101010.pdf" }

/-- Expected merge result for the single-file order `[a]`. -/
def exOkSingle : MergeOk :=
  { merged_id := "m2"
    filename := "processed_a_101010.pdf"
    file_count := 1
    total_pages := 2
    output_pages := [1, 2]
    output_path := "temp_uploads/s/processed_a_101010.pdf" }

/-! Helper lemmas shared by the claim theorems. -/

theorem processOrder_fst (sfl : List FileInfo) (disk : Disk) (td : String)
    (order : List OrderEntry) :
    (processOrder sfl disk td order).1 =
      (order.filterMap (fun e => Option.map Prod.fst (processEntry sfl disk td e))).flatten := by
  induction order with
  | nil => rfl
  | cons e rest ih =>
    cases h : processEntry sfl disk td e with
    | none => simp [processOrder, h, ih]
    | some v =>
      obtain ⟨pgs, pf⟩ := v
      simp [processOrder, h, ih]

theorem processEntry_some (sfl : List FileInfo) (disk : Disk) (td : String)
    (e : OrderEntry) (pgs : List Nat) (pf : ProcessedFile)
    (h : processEntry sfl disk td e = some (pgs, pf)) :
    pf.pages = pgs.length ∧ pf.filename = e.filename := by
  unfold processEntry at h
  split at h
  · simp at h
  · split at h
    · simp only [Option.some.injEq, Prod.mk.injEq] at h
      obtain ⟨h1, h2⟩ := h
      subst h1; subst h2
      exact ⟨rfl, rfl⟩
    · simp at h

theorem processOrder_length_sum (sfl : List FileInfo) (disk : Disk) (td : String)
    (order : List OrderEntry) :
    (processOrder sfl disk td order).1.length =
      ((processOrder sfl disk td order).2.map ProcessedFile.pages).sum := by
  induction order with
  | nil => rfl
  | cons e rest ih =>
    cases h : processEntry sfl disk td e with
    | none => simp [processOrder, h, ih]
    | some v =>
      obtain ⟨pgs, pf⟩ := v
      have hp := processEntry_some sfl disk td e pgs pf h
      simp [processOrder, h, ih, hp.1]

theorem merge_ok_fields (reg : List (String × List FileInfo)) (disk : Disk)
    (sessionId : Option String) (fileOrder : List OrderEntry)
    (now freshMergedId : String) (r : MergeOk)
    (h : merge_ordered_pdfs reg disk sessionId fileOrder now freshMergedId = .ok r) :
    ∃ sid, sessionId = some sid ∧
      r.merged_id = freshMergedId ∧
      r.output_pages = (processOrder ((dictGet sid reg).getD []) disk
        (pathJoin UPLOAD_FOLDER sid) fileOrder).1 ∧
      r.file_count = (processOrder ((dictGet sid reg).getD []) disk
        (pathJoin UPLOAD_FOLDER sid) fileOrder).2.length ∧
      r.total_pages = ((processOrder ((dictGet sid reg).getD []) disk
        (pathJoin UPLOAD_FOLDER sid) fileOrder).2.map ProcessedFile.pages).sum ∧
      r.filename = (if (processOrder ((dictGet sid reg).getD []) disk
          (pathJoin UPLOAD_FOLDER sid) fileOrder).2.length = 1 then
          "processed_" ++ pyReplace ((processOrder ((dictGet sid reg).getD []) disk
            (pathJoin UPLOAD_FOLDER sid) fileOrder).2.headD default).filename ".pdf" ""
            ++ "_" ++ now ++ ".pdf"
        else
          "merged_" ++ toString (processOrder ((dictGet sid reg).getD []) disk
            (pathJoin UPLOAD_FOLDER sid) fileOrder).2.length ++ "_files_"
            ++ toString (((processOrder ((dictGet sid reg).getD []) disk
              (pathJoin UPLOAD_FOLDER sid) fileOrder).2.map ProcessedFile.pages).sum)
            ++ "_pages_" ++ now ++ ".pdf") ∧
      (processOrder ((dictGet sid reg).getD []) disk
        (pathJoin UPLOAD_FOLDER sid) fileOrder).2 ≠ [] := by
  cases sessionId with
  | none => simp [merge_ordered_pdfs] at h
  | some sid =>
    refine ⟨sid, rfl, ?_⟩
    simp only [merge_ordered_pdfs] at h
    split at h
    · simp at h
    · split at h
      · simp at h
      · split at h
        · simp at h
        · split at h
          · simp at h
          · split at h
            · simp at h
            · rename_i hres
              simp only [MergeResponse.ok.injEq] at h
              subst h
              exact ⟨rfl, rfl, rfl, rfl, rfl, hres⟩

theorem dictGet_filter_none {α : Type} (k : String) (p : String × α → Bool)
    (l : List (String × α)) (h : dictGet k l = none) :
    dictGet k (l.filter p) = none := by
  induction l with
  | nil => rfl
  | cons kv rest ih =>
    obtain ⟨k', v⟩ := kv
    by_cases hk : k' = k
    · simp [dictGet, hk] at h
    · have h' : dictGet k rest = none := by simpa [dictGet, hk] using h
      by_cases hp : p (k', v) <;> simp [List.filter_cons, hp, dictGet, hk, ih h']

theorem cleanup_session_dictGet_none (st : ServerState) (sid k : String)
    (h : dictGet k st.session_files = none) :
    dictGet k (cleanup_session st sid).session_files = none :=
  dictGet_filter_none k _ _ h

theorem cleanup_foldl_dictGet_none (l : List String) (st : ServerState) (k : String)
    (h : dictGet k st.session_files = none) :
    dictGet k (l.foldl cleanup_session st).session_files = none := by
  induction l generalizing st with
  | nil => exact h
  | cons a t ih => exact ih _ (cleanup_session_dictGet_none st a k h)

theorem cleanup_memory_dictGet_none (st : ServerState) (now : Nat)
    (ctime : String → Option Nat) (k : String)
    (h : dictGet k st.session_files = none) :
    dictGet k (cleanup_memory st now ctime).session_files = none :=
  cleanup_foldl_dictGet_none _ st k h

theorem processUploads_all_skipped (sid : String) (files : List UploadFile)
    (hskip : ∀ f ∈ files, allowed_file f.filename = false) :
    ∀ idx, processUploads sid idx files = [] := by
  induction files with
  | nil => intro idx; rfl
  | cons f rest ih =>
    intro idx
    have hf := hskip f (by simp)
    have hrest : ∀ g ∈ rest, allowed_file g.filename = false :=
      fun g hg => hskip g (by simp [hg])
    by_cases hn : f.filename = ""
    · simp [processUploads, hn, ih hrest]
    · simp [processUploads, hn, hf, ih hrest]

theorem processUploads_mem (sid : String) (files : List UploadFile) (f : UploadFile)
    (hf : f ∈ files) (hn : f.filename ≠ "") (ha : allowed_file f.filename = true) :
    ∀ idx, ∃ j, buildFileInfo sid j f ∈ processUploads sid idx files := by
  induction files with
  | nil => cases hf
  | cons g rest ih =>
    intro idx
    rcases List.mem_cons.mp hf with hfg | hmem
    · subst hfg
      refine ⟨idx, ?_⟩
      simp [processUploads, hn, ha]
    · by_cases hgn : g.filename = ""
      · simpa [processUploads, hgn] using ih hmem idx
      · by_cases hga : allowed_file g.filename = true
        · obtain ⟨j, hj⟩ := ih hmem (idx + 1)
          refine ⟨j, ?_⟩
          have hstep : processUploads sid idx (g :: rest) =
              buildFileInfo sid idx g :: processUploads sid (idx + 1) rest := by
            simp [processUploads, hgn, hga]
          rw [hstep]
          exact List.mem_cons_of_mem _ hj
        · simpa [processUploads, hgn, hga] using ih hmem idx

theorem upload_preview_ok (st : ServerState) (now : Nat) (ctime : String → Option Nat)
    (files : List UploadFile) (existing : Option String) (freshId : String)
    (hreq : ¬(files = [] ∨ (files.length = 1 ∧ (files.headD default).filename = ""))) :
    ∃ sid idx, (upload_preview st now ctime true files existing freshId).1 =
      .ok (processUploads sid idx files) sid := by
  refine ⟨(selectSession (if st.session_files.length > 50 then
      cleanup_memory st now ctime else st).session_files existing freshId).1,
    (selectSession (if st.session_files.length > 50 then
      cleanup_memory st now ctime else st).session_files existing freshId).2, ?_⟩
  simp only [upload_preview, Bool.not_true, Bool.false_eq_true, if_false]
  rw [if_neg hreq]

/-! Claim C1. -/

/-- C1: for every merge request with a non-empty ordered list of file
descriptors that produces a merged output, the output's page sequence is
exactly the concatenation of the resolved files' page sequences taken in
the order the entries appear in the requested `file_order` list (not
upload order), each file's pages kept in their original intra-file
order. -/
theorem merge_output_pages_in_requested_order (reg : List (String × List FileInfo))
    (disk : Disk) (sessionId : Option String) (fileOrder : List OrderEntry)
    (now freshMergedId : String) (r : MergeOk)
    (horder : fileOrder ≠ [])
    (h : merge_ordered_pdfs reg disk sessionId fileOrder now freshMergedId = .ok r) :
    ∃ sid, sessionId = some sid ∧
      r.output_pages =
        (fileOrder.filterMap (fun e =>
          Option.map Prod.fst (processEntry ((dictGet sid reg).getD []) disk
            (pathJoin UPLOAD_FOLDER sid) e))).flatten := by
  obtain ⟨sid, hsid, -, hout, -⟩ :=
    merge_ok_fields reg disk sessionId fileOrder now freshMergedId r h
  exact ⟨sid, hsid, by rw [hout, processOrder_fst]⟩

/-- C1 witness: in the example session, merging in the order `[b, a]`
(reverse of upload order) yields page sequence `[3, 4, 5, 1, 2]` - b's
pages then a's pages, intra-file order preserved. -/
theorem merge_output_pages_in_requested_order_witness :
    exOrder ≠ [] ∧
    merge_ordered_pdfs exReg exDisk (some "s") exOrder "101010" "m" = .ok exOk ∧
    ∃ sid, (some "s" : Option String) = some sid ∧
      exOk.output_pages =
        (exOrder.filterMap (fun e =>
          Option.map Prod.fst (processEntry ((dictGet sid exReg).getD []) exDisk
            (pathJoin UPLOAD_FOLDER sid) e))).flatten :=
  ⟨by decide, by decide,
    merge_output_pages_in_requested_order exReg exDisk (some "s") exOrder "101010" "m" exOk
      (by decide) (by decide)⟩

/-! Claim C5. -/

/-- C5: for every successful merge, the returned `total_pages` is the sum of
the page counts of the files actually processed (equivalently, the length
of the output page sequence) and `file_count` is the number of files
actually processed. -/
theorem merge_totals_match_processed (reg : List (String × List FileInfo))
    (disk : Disk) (sessionId : Option String) (fileOrder : List OrderEntry)
    (now freshMergedId : String) (r : MergeOk)
    (h : merge_ordered_pdfs reg disk sessionId fileOrder now freshMergedId = .ok r) :
    ∃ sid, sessionId = some sid ∧
      r.total_pages = ((processOrder ((dictGet sid reg).getD []) disk
        (pathJoin UPLOAD_FOLDER sid) fileOrder).2.map ProcessedFile.pages).sum ∧
      r.file_count = (processOrder ((dictGet sid reg).getD []) disk
        (pathJoin UPLOAD_FOLDER sid) fileOrder).2.length ∧
      r.total_pages = r.output_pages.length := by
  obtain ⟨sid, hsid, -, hout, hcount, htotal, -⟩ :=
    merge_ok_fields reg disk sessionId fileOrder now freshMergedId r h
  refine ⟨sid, hsid, htotal, hcount, ?_⟩
  rw [htotal, hout, processOrder_length_sum]

/-- C5 witness: merging the 3-page `b.pdf` and the 2-page `a.pdf` yields
`total_pages = 5` and `file_count = 2`, exactly the spec's concrete
scenario. -/
theorem merge_totals_match_processed_witness :
    merge_ordered_pdfs exReg exDisk (some "s") exOrder "101010" "m" = .ok exOk ∧
    exOk.total_pages = 5 ∧ exOk.file_count = 2 ∧
    ∃ sid, (some "s" : Option String) = some sid ∧
      exOk.total_pages = ((processOrder ((dictGet sid exReg).getD []) exDisk
        (pathJoin UPLOAD_FOLDER sid) exOrder).2.map ProcessedFile.pages).sum ∧
      exOk.file_count = (processOrder ((dictGet sid exReg).getD []) exDisk
        (pathJoin UPLOAD_FOLDER sid) exOrder).2.length ∧
      exOk.total_pages = exOk.output_pages.length :=
  ⟨by decide, by decide, by decide,
    merge_totals_match_processed exReg exDisk (some "s") exOrder "101010" "m" exOk (by decide)⟩

/-! Claim C8. -/

/-- C8: for every successful merge the output filename is
`processed_<basename>_<timestamp>.pdf` when exactly one file was processed
(basename = the original filename with `.pdf` removed) and
`merged_<count>_files_<total>_pages_<timestamp>.pdf` when more than one
was, where `now` is the `%H%M%S`-formatted (second-resolution) current
time passed to the handler. -/
theorem merge_output_filename_format (reg : List (String × List FileInfo))
    (disk : Disk) (sessionId : Option String) (fileOrder : List OrderEntry)
    (now freshMergedId : String) (r : MergeOk)
    (h : merge_ordered_pdfs reg disk sessionId fileOrder now freshMergedId = .ok r) :
    ∃ sid, sessionId = some sid ∧
      ((processOrder ((dictGet sid reg).getD []) disk
          (pathJoin UPLOAD_FOLDER sid) fileOrder).2.length = 1 →
        r.filename = "processed_" ++ pyReplace ((processOrder ((dictGet sid reg).getD []) disk
          (pathJoin UPLOAD_FOLDER sid) fileOrder).2.headD default).filename ".pdf" ""
          ++ "_" ++ now ++ ".pdf") ∧
      (1 < (processOrder ((dictGet sid reg).getD []) disk
          (pathJoin UPLOAD_FOLDER sid) fileOrder).2.length →
        r.filename = "merged_" ++ toString (processOrder ((dictGet sid reg).getD []) disk
            (pathJoin UPLOAD_FOLDER sid) fileOrder).2.length ++ "_files_"
          ++ toString (((processOrder ((dictGet sid reg).getD []) disk
            (pathJoin UPLOAD_FOLDER sid) fileOrder).2.map ProcessedFile.pages).sum)
          ++ "_pages_" ++ now ++ ".pdf") := by
  obtain ⟨sid, hsid, -, -, -, -, hname, -⟩ :=
    merge_ok_fields reg disk sessionId fileOrder now freshMergedId r h
  refine ⟨sid, hsid, ?_, ?_⟩
  · intro h1
    rw [hname, if_pos h1]
  · intro h2
    rw [hname, if_neg (by omega)]

/-- C8 witness: the two-file example merge is named
`merged_2_files_5_pages_101010.pdf`, and the single-file merge of `a.pdf`
is named `processed_a_101010.pdf`. -/
theorem merge_output_filename_format_witness :
    merge_ordered_pdfs exReg exDisk (some "s") exOrder "101010" "m" = .ok exOk ∧
    merge_ordered_pdfs exReg exDisk (some "s") [⟨"s_0", "a.pdf"⟩] "101010" "m2" =
      .ok exOkSingle ∧
    exOkSingle.filename = "processed_a_101010.pdf" ∧
    ∃ sid, (some "s" : Option String) = some sid ∧
      ((processOrder ((dictGet sid exReg).getD []) exDisk
          (pathJoin UPLOAD_FOLDER sid) exOrder).2.length = 1 →
        exOk.filename = "processed_" ++ pyReplace ((processOrder ((dictGet sid exReg).getD []) exDisk
          (pathJoin UPLOAD_FOLDER sid) exOrder).2.headD default).filename ".pdf" ""
          ++ "_" ++ "101010" ++ ".pdf") ∧
      (1 < (processOrder ((dictGet sid exReg).getD []) exDisk
          (pathJoin UPLOAD_FOLDER sid) exOrder).2.length →
        exOk.filename = "merged_" ++ toString (processOrder ((dictGet sid exReg).getD []) exDisk
            (pathJoin UPLOAD_FOLDER sid) exOrder).2.length ++ "_files_"
          ++ toString (((processOrder ((dictGet sid exReg).getD []) exDisk
            (pathJoin UPLOAD_FOLDER sid) exOrder).2.map ProcessedFile.pages).sum)
          ++ "_pages_" ++ "101010" ++ ".pdf") :=
  ⟨by decide, by decide, by decide,
    merge_output_filename_format exReg exDisk (some "s") exOrder "101010" "m" exOk (by decide)⟩

/-! Claim C2. -/

/-- State for the cleanup scenario: one session `old` in the session
registry, its directory on disk, no merge results. -/
def c2State : ServerState := ⟨[("old", [])], [], ["old"]⟩

/-- Directory creation times for the cleanup scenario: the directory of
session `old` was created at epoch second 0. -/
def c2ctime : String → Option Nat := fun sid => if sid = "old" then some 0 else none

/-- C2 (code bug): a session whose directory was created exactly one day
(86400 s) before the cleanup pass is far older than the 10-minute
threshold, yet `cleanup_memory` leaves the whole state untouched: the
code compares `timedelta.seconds` - the seconds-within-a-day component of
the age, here `86400 % 86400 = 0` - against 600 instead of the total age,
so the session is evicted from neither registry and its directory
stays. -/
theorem cleanup_memory_keeps_day_old_session :
    86400 - (0 : Nat) > 600 ∧
    sessionExpiredCheck 86400 (some 0) = false ∧
    cleanup_memory c2State 86400 c2ctime = c2State := by
  refine ⟨by decide, by decide, by decide⟩

/-! Claim C3. -/

/-- C3 counterexample: an upload whose only file has a disallowed `.txt`
extension skips the file, but the endpoint responds with success and an
empty `previews` list, not with a 400 client error. -/
theorem upload_all_skipped_returns_success_cex :
    allowed_file "doc.txt" = false ∧
    (upload_preview emptyState 0 noCtime true [⟨"doc.txt", 10, .malformed⟩]
      none "fresh").1 = .ok [] "fresh" := by
  refine ⟨by decide, by decide⟩

/-- C3 (amended): when every submitted file is skipped for a disallowed
(non-`.pdf`) extension, no skipped file appears in the previews, and the
endpoint succeeds with an empty `previews` list and a session id rather
than failing; the 400 client errors occur only for a missing `pdf_files`
field, an empty file list, or a lone file with an empty filename. -/
theorem upload_all_skipped_success_empty_previews (st : ServerState) (now : Nat)
    (ctime : String → Option Nat) (files : List UploadFile)
    (existing : Option String) (freshId : String)
    (hne : files ≠ [])
    (hskip : ∀ f ∈ files, f.filename ≠ "" ∧ allowed_file f.filename = false) :
    ∃ sid, (upload_preview st now ctime true files existing freshId).1 = .ok [] sid := by
  have hreq : ¬(files = [] ∨ (files.length = 1 ∧ (files.headD default).filename = "")) := by
    rintro (h | ⟨-, hhead⟩)
    · exact hne h
    · cases files with
      | nil => exact hne rfl
      | cons g rest => exact (hskip g (by simp)).1 hhead
  obtain ⟨sid, idx, hresp⟩ := upload_preview_ok st now ctime files existing freshId hreq
  exact ⟨sid, by
    rw [hresp, processUploads_all_skipped sid files (fun f hf => (hskip f hf).2) idx]⟩

/-- C3 witness for the amended claim: two files, `doc.txt` and
`notes.docx`, are both skipped for their extensions; the endpoint
succeeds with empty previews. -/
theorem upload_all_skipped_success_empty_previews_witness :
    ([(⟨"doc.txt", 10, .malformed⟩ : UploadFile), ⟨"notes.docx", 3, .wellFormed [1]⟩] ≠
      ([] : List UploadFile)) ∧
    ("doc.txt" : String) ≠ "" ∧ allowed_file "doc.txt" = false ∧
    ("notes.docx" : String) ≠ "" ∧ allowed_file "notes.docx" = false ∧
    ∃ sid, (upload_preview emptyState 0 noCtime true
        [⟨"doc.txt", 10, .malformed⟩, ⟨"notes.docx", 3, .wellFormed [1]⟩]
        none "fresh").1 = .ok [] sid :=
  ⟨by decide, by decide, by decide, by decide, by decide,
    upload_all_skipped_success_empty_previews emptyState 0 noCtime
      [⟨"doc.txt", 10, .malformed⟩, ⟨"notes.docx", 3, .wellFormed [1]⟩] none "fresh"
      (by decide)
      (by
        intro f hf
        simp only [List.mem_cons, List.not_mem_nil, or_false] at hf
        rcases hf with rfl | rfl
        · exact ⟨by decide, by decide⟩
        · exact ⟨by decide, by decide⟩)⟩

/-! Claim C4. -/

/-- Session record for the C4 counterexample: a file whose bytes the PDF
library cannot parse. -/
def c4File : FileInfo := buildFileInfo "t" 0 ⟨"bad.pdf", 10, .malformed⟩

/-- Session registry for the C4 counterexample. -/
def c4Reg : List (String × List FileInfo) := [("t", [c4File])]

/-- Disk for the C4 counterexample: the backing file is present but
unreadable. -/
def c4Disk : Disk :=
  { dirExists := fun p => p == pathJoin UPLOAD_FOLDER "t"
    file := fun p => if p = "temp_uploads/t/0_bad.pdf" then .unparseable else .missing }

/-- The requested order for the C4 counterexample. -/
def c4Order : List OrderEntry := [⟨"t_0", "bad.pdf"⟩]

/-- C4 counterexample: the single order entry resolves by id to a session
file that is present on disk, yet the merge still fails with the 400 "No
valid files could be processed" error because the file cannot be read -
so "the merge fails with 400 if and only if zero entries resolve
successfully" is false as stated. -/
theorem merge_error_despite_resolved_entry_cex :
    (c4Order.filter (claimResolves ((dictGet "t" c4Reg).getD []) c4Disk
      (pathJoin UPLOAD_FOLDER "t"))).length = 1 ∧
    merge_ordered_pdfs c4Reg c4Disk (some "t") c4Order "101010" "m" =
      .err 400 "No valid files could be processed" := by
  refine ⟨by decide, by decide⟩

/-- C4 (amended): entries of the requested order that do not resolve by id,
whose backing file is missing from disk, or whose file cannot be read are
skipped without aborting the merge; and, for a request passing the
session checks, the merge fails with the 400 "No valid files could be
processed" error if and only if zero entries are successfully processed
(resolved by id, present on disk, and readable). -/
theorem merge_no_valid_error_iff_none_processed (reg : List (String × List FileInfo))
    (disk : Disk) (sid : String) (fileOrder : List OrderEntry)
    (now freshMergedId : String)
    (hsid : sid ≠ "") (horder : fileOrder ≠ [])
    (hdir : disk.dirExists (pathJoin UPLOAD_FOLDER sid) = true)
    (hsfl : (dictGet sid reg).getD [] ≠ []) :
    (∀ e rest, processEntry ((dictGet sid reg).getD []) disk
        (pathJoin UPLOAD_FOLDER sid) e = none →
      processOrder ((dictGet sid reg).getD []) disk
        (pathJoin UPLOAD_FOLDER sid) (e :: rest) =
      processOrder ((dictGet sid reg).getD []) disk
        (pathJoin UPLOAD_FOLDER sid) rest) ∧
    (merge_ordered_pdfs reg disk (some sid) fileOrder now freshMergedId =
        .err 400 "No valid files could be processed" ↔
      (processOrder ((dictGet sid reg).getD []) disk
        (pathJoin UPLOAD_FOLDER sid) fileOrder).2 = []) := by
  constructor
  · intro e rest he
    simp [processOrder, he]
  · have hlen : ¬ fileOrder.length < 1 := by
      cases fileOrder with
      | nil => exact absurd rfl horder
      | cons a t => simp
    by_cases hres : (processOrder ((dictGet sid reg).getD []) disk
        (pathJoin UPLOAD_FOLDER sid) fileOrder).2 = [] <;>
      simp [merge_ordered_pdfs, hsid, horder, hdir, hlen, hsfl, hres]

/-- Session registry for the C4 witness. -/
def c4wReg : List (String × List FileInfo) :=
  [("u", [buildFileInfo "u" 0 ⟨"a.pdf", 5, .wellFormed [7]⟩])]

/-- Disk for the C4 witness: no file is present. -/
def c4wDisk : Disk :=
  { dirExists := fun p => p == pathJoin UPLOAD_FOLDER "u"
    file := fun _ => .missing }

/-- C4 witness for the amended claim: the lone order entry carries an id
unknown to the session, nothing is processed, and the merge yields
exactly the 400 "No valid files could be processed" error. -/
theorem merge_no_valid_error_iff_none_processed_witness :
    ("u" : String) ≠ "" ∧ ([⟨"nope", "a.pdf"⟩] : List OrderEntry) ≠ [] ∧
    c4wDisk.dirExists (pathJoin UPLOAD_FOLDER "u") = true ∧
    (dictGet "u" c4wReg).getD [] ≠ [] ∧
    ((∀ e rest, processEntry ((dictGet "u" c4wReg).getD []) c4wDisk
        (pathJoin UPLOAD_FOLDER "u") e = none →
      processOrder ((dictGet "u" c4wReg).getD []) c4wDisk
        (pathJoin UPLOAD_FOLDER "u") (e :: rest) =
      processOrder ((dictGet "u" c4wReg).getD []) c4wDisk
        (pathJoin UPLOAD_FOLDER "u") rest) ∧
    (merge_ordered_pdfs c4wReg c4wDisk (some "u") [⟨"nope", "a.pdf"⟩] "101010" "m" =
        .err 400 "No valid files could be processed" ↔
      (processOrder ((dictGet "u" c4wReg).getD []) c4wDisk
        (pathJoin UPLOAD_FOLDER "u") [⟨"nope", "a.pdf"⟩]).2 = [])) :=
  ⟨by decide, by decide, by decide, by decide,
    merge_no_valid_error_iff_none_processed c4wReg c4wDisk "u" [⟨"nope", "a.pdf"⟩]
      "101010" "m" (by decide) (by decide) (by decide) (by decide)⟩

/-! Claim C6. -/

/-- A well-formed 2-page upload used by several witnesses. -/
def upA : UploadFile := ⟨"a.pdf", 1000, .wellFormed [1, 2]⟩

/-- C6: in every upload request passing the request-shape checks, each
uploaded file with a nonempty name, an allowed extension and a
well-formed PDF body gets a preview reporting exactly the file's true
page count. -/
theorem upload_preview_pagecount_correct (st : ServerState) (now : Nat)
    (ctime : String → Option Nat) (files : List UploadFile)
    (existing : Option String) (freshId : String) (f : UploadFile) (ps : List Nat)
    (hreq : ¬(files = [] ∨ (files.length = 1 ∧ (files.headD default).filename = "")))
    (hf : f ∈ files) (hn : f.filename ≠ "") (ha : allowed_file f.filename = true)
    (hc : f.content = .wellFormed ps) :
    ∃ previews sid,
      (upload_preview st now ctime true files existing freshId).1 = .ok previews sid ∧
      ∃ p ∈ previews, p.filename = f.filename ∧ p.pages = ps.length := by
  obtain ⟨sid, idx, hresp⟩ := upload_preview_ok st now ctime files existing freshId hreq
  obtain ⟨j, hj⟩ := processUploads_mem sid files f hf hn ha idx
  refine ⟨_, _, hresp, buildFileInfo sid j f, hj, rfl, ?_⟩
  simp [buildFileInfo, hc]

/-- C6 witness: uploading the well-formed 2-page `a.pdf` produces a preview
with `pages = 2`. -/
theorem upload_preview_pagecount_correct_witness :
    ¬([upA] = ([] : List UploadFile) ∨
        ([upA].length = 1 ∧ ([upA].headD default).filename = "")) ∧
    upA ∈ [upA] ∧ upA.filename ≠ "" ∧ allowed_file upA.filename = true ∧
    upA.content = .wellFormed [1, 2] ∧
    (∃ previews sid,
      (upload_preview emptyState 0 noCtime true [upA] none "fresh").1 =
        .ok previews sid ∧
      ∃ p ∈ previews, p.filename = upA.filename ∧ p.pages = ([1, 2] : List Nat).length) :=
  ⟨by decide, by decide, by decide, by decide, by decide,
    upload_preview_pagecount_correct emptyState 0 noCtime [upA] none "fresh" upA [1, 2]
      (by decide) (by decide) (by decide) (by decide) (by decide)⟩

/-! Claim C10. -/

/-- C10: in every upload request passing the request-shape checks, a file
with an allowed extension whose page count cannot be parsed still
succeeds, its preview reporting exactly 1 page; and the preview record
built for an unparseable file is identical to the one built for a
well-formed one-page file of the same name and size, so the two are
indistinguishable in the response. -/
theorem upload_unparseable_defaults_one_page (st : ServerState) (now : Nat)
    (ctime : String → Option Nat) (files : List UploadFile)
    (existing : Option String) (freshId : String) (f : UploadFile)
    (hreq : ¬(files = [] ∨ (files.length = 1 ∧ (files.headD default).filename = "")))
    (hf : f ∈ files) (hn : f.filename ≠ "") (ha : allowed_file f.filename = true)
    (hc : f.content = .malformed) :
    (∃ previews sid,
      (upload_preview st now ctime true files existing freshId).1 = .ok previews sid ∧
      ∃ p ∈ previews, p.filename = f.filename ∧ p.pages = 1) ∧
    (∀ sid idx name sz, buildFileInfo sid idx ⟨name, sz, .malformed⟩ =
      buildFileInfo sid idx ⟨name, sz, .wellFormed [0]⟩) := by
  constructor
  · obtain ⟨sid, idx, hresp⟩ := upload_preview_ok st now ctime files existing freshId hreq
    obtain ⟨j, hj⟩ := processUploads_mem sid files f hf hn ha idx
    refine ⟨_, _, hresp, buildFileInfo sid j f, hj, rfl, ?_⟩
    simp [buildFileInfo, hc]
  · intro sid idx name sz
    rfl

/-- An unparseable upload with an allowed extension. -/
def upBad : UploadFile := ⟨"scan.pdf", 77, .malformed⟩

/-- C10 witness: uploading the unparseable `scan.pdf` succeeds with a
preview reporting 1 page. -/
theorem upload_unparseable_defaults_one_page_witness :
    ¬([upBad] = ([] : List UploadFile) ∨
        ([upBad].length = 1 ∧ ([upBad].headD default).filename = "")) ∧
    upBad ∈ [upBad] ∧ upBad.filename ≠ "" ∧ allowed_file upBad.filename = true ∧
    upBad.content = .malformed ∧
    ((∃ previews sid,
      (upload_preview emptyState 0 noCtime true [upBad] none "fresh").1 =
        .ok previews sid ∧
      ∃ p ∈ previews, p.filename = upBad.filename ∧ p.pages = 1) ∧
    (∀ sid idx name sz, buildFileInfo sid idx ⟨name, sz, .malformed⟩ =
      buildFileInfo sid idx ⟨name, sz, .wellFormed [0]⟩)) :=
  ⟨by decide, by decide, by decide, by decide, by decide,
    upload_unparseable_defaults_one_page emptyState 0 noCtime [upBad] none "fresh" upBad
      (by decide) (by decide) (by decide) (by decide) (by decide)⟩

/-! Claim C9. -/

/-- C9: an upload that supplies an `existing_session` id not present in the
session registry (for example an expired one) silently uses the freshly
minted uuid, numbers accepted files from index 0, and returns the fresh
id with success - it neither reuses the supplied id nor reports an
error. -/
theorem upload_unknown_session_gets_fresh_id (st : ServerState) (now : Nat)
    (ctime : String → Option Nat) (files : List UploadFile) (sid0 freshId : String)
    (hreq : ¬(files = [] ∨ (files.length = 1 ∧ (files.headD default).filename = "")))
    (hnot : dictGet sid0 st.session_files = none) :
    (upload_preview st now ctime true files (some sid0) freshId).1 =
      .ok (processUploads freshId 0 files) freshId := by
  have hnot1 : dictGet sid0 (if st.session_files.length > 50 then
      cleanup_memory st now ctime else st).session_files = none := by
    split
    · exact cleanup_memory_dictGet_none st now ctime sid0 hnot
    · exact hnot
  have hsel : selectSession (if st.session_files.length > 50 then
      cleanup_memory st now ctime else st).session_files (some sid0) freshId =
      (freshId, 0) := by
    by_cases h0 : sid0 = ""
    · simp [selectSession, h0]
    · simp [selectSession, h0, hnot1]
  simp only [upload_preview, Bool.not_true, Bool.false_eq_true, if_false]
  rw [if_neg hreq, hsel]

/-- C9 witness: supplying the unknown session id `ghost` yields the fresh
id `fresh` and a preview list indexed from 0. -/
theorem upload_unknown_session_gets_fresh_id_witness :
    ¬([upA] = ([] : List UploadFile) ∨
        ([upA].length = 1 ∧ ([upA].headD default).filename = "")) ∧
    dictGet "ghost" emptyState.session_files = none ∧
    (upload_preview emptyState 0 noCtime true [upA] (some "ghost") "fresh").1 =
      .ok (processUploads "fresh" 0 [upA]) "fresh" :=
  ⟨by decide, by decide,
    upload_unknown_session_gets_fresh_id emptyState 0 noCtime [upA] "ghost" "fresh"
      (by decide) (by decide)⟩

/-! Claim C7. -/

/-- Merge result on record for the download scenarios. -/
def c7Result : MergeResult :=
  { path := "temp_uploads/s/merged_2_files_5_pages_101010.pdf"
    filename := "merged_2_files_5_pages_101010.pdf"
    session_id := "s"
    created_at := 0
    file_count := 2
    total_pages := 5 }

/-- Merge-result registry for the download scenarios. -/
def c7Merged : List (String × MergeResult) := [("m", c7Result)]

/-- File-existence oracle for the download scenarios. -/
def c7Exists : String → Bool :=
  fun p => p == "temp_uploads/s/merged_2_files_5_pages_101010.pdf"

/-- C7 counterexample: downloading merge `m` with custom filename `#.PDF`
returns attachment name `PDF`, which does not end in `.pdf`: the custom
name already ends with `.pdf` case-insensitively so nothing is appended,
sanitization deletes `#` and then strips the now-leading dot, and no
fallback to the stored filename happens since the sanitized name is
neither empty nor exactly `.pdf`. -/
theorem download_custom_filename_not_pdf_cex :
    download_merged_pdf c7Merged c7Exists "m" (some "#.PDF") =
      .sendFile "temp_uploads/s/merged_2_files_5_pages_101010.pdf" "PDF" ∧
    pyEndsWith (pyLower "PDF") ".pdf" = false ∧
    secure_filename "#.PDF" = "PDF" := by
  refine ⟨by decide, by decide, by decide⟩

/-- C7 (amended): for every download of a known merge id with a nonempty
custom filename, `.pdf` is appended exactly when the lowercased name does
not already end with it, the attachment name is the sanitized result, and
when sanitization empties the name (or reduces it to exactly `.pdf`) the
attachment name falls back to the stored filename of the merge result;
sanitization may strip characters, so the final name need not end in
`.pdf`. -/
theorem download_custom_filename_normalized (merged : List (String × MergeResult))
    (fileExistsOnDisk : String → Bool) (merged_id c : String) (info : MergeResult)
    (hlook : dictGet merged_id merged = some info)
    (hc : c ≠ "")
    (hex : fileExistsOnDisk info.path = true) :
    (pyEndsWith (pyLower c) ".pdf" = false →
      download_merged_pdf merged fileExistsOnDisk merged_id (some c) =
        .sendFile info.path
          (if secure_filename (c ++ ".pdf") = "" ∨ secure_filename (c ++ ".pdf") = ".pdf"
            then info.filename else secure_filename (c ++ ".pdf"))) ∧
    (pyEndsWith (pyLower c) ".pdf" = true →
      download_merged_pdf merged fileExistsOnDisk merged_id (some c) =
        .sendFile info.path
          (if secure_filename c = "" ∨ secure_filename c = ".pdf"
            then info.filename else secure_filename c)) := by
  constructor <;> intro hend <;>
    simp [download_merged_pdf, hlook, hc, hex, hend]

/-- C7 witness: the custom name `report` lacks the suffix, so the
attachment is named `report.pdf`. -/
theorem download_custom_filename_normalized_witness :
    dictGet "m" c7Merged = some c7Result ∧ ("report" : String) ≠ "" ∧
    c7Exists c7Result.path = true ∧
    ((pyEndsWith (pyLower "report") ".pdf" = false →
      download_merged_pdf c7Merged c7Exists "m" (some "report") =
        .sendFile c7Result.path
          (if secure_filename ("report" ++ ".pdf") = "" ∨
              secure_filename ("report" ++ ".pdf") = ".pdf"
            then c7Result.filename else secure_filename ("report" ++ ".pdf"))) ∧
    (pyEndsWith (pyLower "report") ".pdf" = true →
      download_merged_pdf c7Merged c7Exists "m" (some "report") =
        .sendFile c7Result.path
          (if secure_filename "report" = "" ∨ secure_filename "report" = ".pdf"
            then c7Result.filename else secure_filename "report"))) :=
  ⟨by decide, by decide, by decide,
    download_custom_filename_normalized c7Merged c7Exists "m" "report" c7Result
      (by decide) (by decide) (by decide)⟩

end PdfMerger
